import Mathlib

set_option maxRecDepth 2000

/-!
Shallow embedding of `src/main.py` (a Flask service relaying Google Drive
change notifications to a Dify dataset ingestion endpoint).

Modelling conventions:
* Python strings are `String`; raw byte payloads are abstracted as `String`.
* Python `None`-able values are `Option`; Python truthiness of a string
  (`if s:` treating `None` and `""` as false) is the `truthy` predicate.
* Exceptions are `Except String` results.  External collaborators (the Drive
  API, the Firestore-backed state document, the Dify HTTP endpoint) are
  oracles: records of functions supplied as parameters.
* Observable side effects (provider calls, HTTP posts, state writes) are
  collected in an explicit event trace, in the order the code performs them.
* The Firestore state document `state/drive` is modelled by its single field
  of interest, the `pageToken` string (`Option String`; `set(..., merge=True)`
  only ever touches that field here).
-/

namespace DriveSync

/-- Configuration derived from environment variables at module load. -/
structure Config where
  difyApiKey : String
  difyDatasetId : String
  channelToken : String
  webhookUrl : String
  targetFolderId : String
deriving Repr, DecidableEq

/-- Python truthiness of an optional string: `None` and `""` are falsy. -/
def truthy : Option String → Bool
  | none => false
  | some s => s ≠ ""

/-- Python `a or b` for a possibly-missing string `a` falling back to `b`
(used for `name_hint or file_id`). -/
def pyOrStr (a : Option String) (b : String) : String :=
  match a with
  | none => b
  | some s => if s = "" then b else s

/-- Python `a or b` on two optional strings (used for
`result.get("newStartPageToken") or result.get("nextPageToken")`). -/
def pyOrOpt (a b : Option String) : Option String :=
  if truthy a then a else b

/-- Python `s.rstrip("/")`: drop trailing slash characters. -/
def rstripSlash (s : String) : String :=
  String.mk ((s.toList.reverse.dropWhile (fun c => c = '/')).reverse)

/-- Python `s.startswith(p)`, over the character sequences. -/
def strStartsWith (s p : String) : Bool := p.toList.isPrefixOf s.toList

/-- Python `s.endswith(p)`, over the character sequences. -/
def strEndsWith (s p : String) : Bool := p.toList.reverse.isPrefixOf s.toList.reverse

/-- The embedded `file` object of a change record (`ch.get("file") or {}`). -/
structure ChangeFile where
  id : Option String
deriving Repr, DecidableEq

/-- One entry of the Drive changes feed. -/
structure ChangeRecord where
  removed : Bool
  file : Option ChangeFile
deriving Repr, DecidableEq

/-- Embeds `file_id = (ch.get("file") or {}).get("id")`. -/
def chFileId (ch : ChangeRecord) : Option String :=
  match ch.file with
  | none => none
  | some f => f.id

/-- Metadata returned by `files().get(fields="id,name,mimeType,trashed,parents")`. -/
structure FileMeta where
  name : Option String
  mimeType : Option String
  trashed : Bool
  parents : Option (List String)
deriving Repr, DecidableEq

/-- Response of `changes().list`: the change records plus the two tokens. -/
structure ChangesResult where
  changes : List ChangeRecord
  newStartPageToken : Option String
  nextPageToken : Option String
deriving Repr, DecidableEq

/-- A multipart request sent to the Dify create-by-file endpoint: the file
part and the optional `data` form field used by the enriched retry. -/
structure UploadRequest where
  filename : String
  content : String
  dataField : Option String
deriving Repr, DecidableEq

/-- An HTTP response from the Dify endpoint: status, raw text, parsed body. -/
structure HttpResponse where
  statusCode : Nat
  text : String
  jsonBody : String
deriving Repr, DecidableEq

/-- Observable side effects, in program order. -/
inductive Event where
  | listChanges (pageToken : String)
  | metaFetch (fileId : String)
  | export (fileId : String) (mimeType : String)
  | download (fileId : String)
  | nameLookup (fileId : String)
  | post (req : UploadRequest)
  | storeRead
  | storeWrite (pageToken : String)
  | startTokenCall
  | watchCall (pageToken : String) (channelId : String) (address : String) (token : String)
deriving Repr, DecidableEq

/-- The Drive API as an oracle: each method may raise. -/
structure Drive where
  listChanges : String → Except String ChangesResult
  getFileMeta : String → Except String FileMeta
  exportFile : String → String → Except String String
  getMedia : String → Except String String
  getNameMeta : String → Except String (Option String)
  getStartPageToken : Except String String
  watch : String → String → String → String → Except String Unit

/-- The Dify HTTP endpoint as an oracle: `requests.post` may itself raise
(network error), otherwise yields a response of any status. -/
def DifyServer := UploadRequest → Except String HttpResponse

/-- Ways `_upload_to_dify` raises. -/
inductive UploadError where
  | missingConfig
  | network (msg : String)
  | httpStatus (status : Nat) (excerpt : String)
deriving Repr, DecidableEq

/-- Value of `json.dumps(process_opts)` for the enriched retry. -/
def processOptsJson : String := "\x7b\"indexing_technique\": \"high_quality\"\x7d"

/-- In requests, `raise_for_status` raises exactly for 4xx and 5xx. -/
def isFailureStatus (s : Nat) : Bool := 400 ≤ s && s < 600

/-- Embeds `_upload_to_dify`: minimal single-file post first; retry once with the
enriched `data` field iff the first response status is 400; then
`raise_for_status` (logging `r.text[:1000]`) and return the parsed body. -/
def uploadToDify (cfg : Config) (srv : DifyServer) (filename content : String) :
    List Event × Except UploadError String :=
  if cfg.difyApiKey = "" || cfg.difyDatasetId = "" then
    ([], .error .missingConfig)
  else
    let req1 : UploadRequest := ⟨filename, content, none⟩
    match srv req1 with
    | .error e => ([.post req1], .error (.network e))
    | .ok r =>
      if r.statusCode = 400 then
        let req2 : UploadRequest := ⟨filename, content, some processOptsJson⟩
        match srv req2 with
        | .error e => ([.post req1, .post req2], .error (.network e))
        | .ok r2 =>
          if isFailureStatus r2.statusCode then
            ([.post req1, .post req2], .error (.httpStatus r2.statusCode (r2.text.take 1000)))
          else
            ([.post req1, .post req2], .ok r2.jsonBody)
      else if isFailureStatus r.statusCode then
        ([.post req1], .error (.httpStatus r.statusCode (r.text.take 1000)))
      else
        ([.post req1], .ok r.jsonBody)

/-- Render an upload failure as the propagating exception message. -/
def UploadError.msg : UploadError → String
  | .missingConfig => "Missing DIFY_API_KEY or DIFY_DATASET_ID"
  | .network e => e
  | .httpStatus s ex => "Dify upload failed: " ++ toString s ++ " " ++ ex

/-- Export MIME chosen for a Google Docs file. -/
def wordMime : String :=
  "application/vnd.openxmlformats-officedocument.wordprocessingml.document"

/-- Export MIME chosen for a Google Sheets file. -/
def sheetMime : String :=
  "application/vnd.openxmlformats-officedocument.spreadsheetml.sheet"

/-- Embeds `_export_or_download`: export Google-native types to a portable format,
download anything else verbatim and resolve the name by a metadata lookup.
A missing `mimeType` makes `mime_type.startswith` raise (AttributeError on
`None`) before any provider call. -/
def exportOrDownload (drive : Drive) (fileId : String)
    (mimeType : Option String) (nameHint : Option String) :
    List Event × Except String (String × String) :=
  match mimeType with
  | none => ([], .error "AttributeError: NoneType has no attribute startswith")
  | some mt =>
    if strStartsWith mt "application/vnd.google-apps" then
      let out : String :=
        if strEndsWith mt "document" then wordMime
        else if strEndsWith mt "spreadsheets" then sheetMime
        else "application/pdf"
      let ext : String :=
        if strEndsWith mt "document" then ".docx"
        else if strEndsWith mt "spreadsheets" then ".xlsx"
        else ".pdf"
      let filename : String := pyOrStr nameHint fileId ++ ext
      match drive.exportFile fileId out with
      | .error e => ([.export fileId out], .error e)
      | .ok data => ([.export fileId out], .ok (filename, data))
    else
      match drive.getMedia fileId with
      | .error e => ([.download fileId], .error e)
      | .ok data =>
        match drive.getNameMeta fileId with
        | .error e => ([.download fileId, .nameLookup fileId], .error e)
        | .ok nameOpt =>
          ([.download fileId, .nameLookup fileId], .ok (nameOpt.getD fileId, data))

/-- The tail of the processing of one record once the filters passed: content
fetch via `_export_or_download` then `_upload_to_dify`.  Takes only the
fields the code reads past the filters (id, mimeType, name). -/
def fetchAndUpload (cfg : Config) (drive : Drive) (srv : DifyServer)
    (fileId : String) (mimeType nameHint : Option String) :
    List Event × Option String :=
  match exportOrDownload drive fileId mimeType nameHint with
  | (evs, .error e) => (evs, some e)
  | (evs, .ok (fname, data)) =>
    match uploadToDify cfg srv fname data with
    | (uevs, .error e) => (evs ++ uevs, some e.msg)
    | (uevs, .ok _) => (evs ++ uevs, none)

/-- The loop body of `_process_changes` for a single change record: the
events it emits and the exception, if any, it raises. -/
def processOne (cfg : Config) (drive : Drive) (srv : DifyServer)
    (ch : ChangeRecord) : List Event × Option String :=
  if ch.removed then ([], none)
  else if ¬ truthy (chFileId ch) then ([], none)
  else
    let fid := (chFileId ch).getD ""
    match drive.getFileMeta fid with
    | .error e => ([.metaFetch fid], some e)
    | .ok meta =>
      if meta.trashed then ([.metaFetch fid], none)
      else if cfg.targetFolderId ≠ "" ∧ cfg.targetFolderId ∉ meta.parents.getD [] then
        ([.metaFetch fid], none)
      else
        match fetchAndUpload cfg drive srv fid meta.mimeType meta.name with
        | (evs, r) => (Event.metaFetch fid :: evs, r)

/-- The `for ch in result.get("changes", [])` loop: records in order, the
first exception aborts the loop, events before it are kept. -/
def processAll (cfg : Config) (drive : Drive) (srv : DifyServer) :
    List ChangeRecord → List Event × Option String
  | [] => ([], none)
  | ch :: rest =>
    let p := processOne cfg drive srv ch
    match p.2 with
    | some e => (p.1, some e)
    | none =>
      let q := processAll cfg drive srv rest
      (p.1 ++ q.1, q.2)

/-- Outcome of one processing cycle: event trace, resulting stored
pageToken, and the exception, if any, that propagated. -/
structure CycleOut where
  events : List Event
  store : Option String
  err : Option String
deriving Repr, DecidableEq

/-- Embeds `_process_changes(drive, db, page_token)`: enumerate, loop, then
`new_token = result.get("newStartPageToken") or result.get("nextPageToken")`
and write it iff truthy. -/
def processChanges (cfg : Config) (drive : Drive) (srv : DifyServer)
    (store : Option String) (pageToken : String) : CycleOut :=
  match drive.listChanges pageToken with
  | .error e => ⟨[.listChanges pageToken], store, some e⟩
  | .ok res =>
    match processAll cfg drive srv res.changes with
    | (evs, some e) => ⟨Event.listChanges pageToken :: evs, store, some e⟩
    | (evs, none) =>
      let newTok := pyOrOpt res.newStartPageToken res.nextPageToken
      if truthy newTok then
        ⟨Event.listChanges pageToken :: evs ++ [.storeWrite (newTok.getD "")],
          some (newTok.getD ""), none⟩
      else
        ⟨Event.listChanges pageToken :: evs, store, none⟩

/-- Outcome of one HTTP route invocation: event trace, resulting stored
pageToken, HTTP status, response body. -/
structure RouteOut where
  events : List Event
  store : Option String
  status : Nat
  body : String
deriving Repr, DecidableEq

/-- Embeds the `/drive-webhook` route.  `abort(403)` and `abort(500, ...)` raise werkzeug
`HTTPException`s; `HTTPException` subclasses `Exception`, so the enclosing
`except Exception` catches them too and the handler answers 500 with a JSON
error body in every raising case. -/
def drive_webhook (cfg : Config) (drive : Drive) (srv : DifyServer)
    (store : Option String) (headerToken : Option String) : RouteOut :=
  if headerToken ≠ some cfg.channelToken then
    ⟨[], store, 500, "403 Forbidden: channel token mismatch"⟩
  else
    let state := store
    if ¬ truthy state then
      ⟨[.storeRead], store, 500, "500 Internal Server Error: Missing pageToken; open /init once."⟩
    else
      let c := processChanges cfg drive srv store (state.getD "")
      match c.err with
      | some e => ⟨Event.storeRead :: c.events, c.store, 500, e⟩
      | none => ⟨Event.storeRead :: c.events, c.store, 204, ""⟩

/-- Embeds the `/init` route: validate the callback URL, fetch a fresh startPageToken,
persist it, then register the watch channel (channel id is the fresh
uuid, supplied here as a parameter). -/
def init_watch (cfg : Config) (drive : Drive) (store : Option String)
    (channelId : String) : RouteOut :=
  if cfg.webhookUrl = "" ∨ ¬ strStartsWith cfg.webhookUrl "https://" then
    ⟨[], store, 500, "WEBHOOK_URL missing or invalid (must be https Cloud Run URL)"⟩
  else
    match drive.getStartPageToken with
    | .error e => ⟨[.startTokenCall], store, 500, e⟩
    | .ok tok =>
      let address := rstripSlash cfg.webhookUrl ++ "/drive-webhook"
      match drive.watch tok channelId address cfg.channelToken with
      | .error e =>
        ⟨[.startTokenCall, .storeWrite tok, .watchCall tok channelId address cfg.channelToken],
          some tok, 500, e⟩
      | .ok _ =>
        ⟨[.startTokenCall, .storeWrite tok, .watchCall tok channelId address cfg.channelToken],
          some tok, 200, "ok"⟩

end DriveSync

namespace DriveSync

/-! ### Loop decomposition lemmas -/

theorem processAll_nil (cfg : Config) (drive : Drive) (srv : DifyServer) :
    processAll cfg drive srv [] = ([], none) := rfl

theorem processAll_cons_err (cfg : Config) (drive : Drive) (srv : DifyServer)
    (ch : ChangeRecord) (rest : List ChangeRecord) (e : String)
    (h : (processOne cfg drive srv ch).2 = some e) :
    processAll cfg drive srv (ch :: rest) = ((processOne cfg drive srv ch).1, some e) := by
  simp only [processAll, h]

theorem processAll_cons_ok (cfg : Config) (drive : Drive) (srv : DifyServer)
    (ch : ChangeRecord) (rest : List ChangeRecord)
    (h : (processOne cfg drive srv ch).2 = none) :
    processAll cfg drive srv (ch :: rest) =
      ((processOne cfg drive srv ch).1 ++ (processAll cfg drive srv rest).1,
        (processAll cfg drive srv rest).2) := by
  simp only [processAll, h]

theorem processAll_append_ok (cfg : Config) (drive : Drive) (srv : DifyServer)
    (l1 l2 : List ChangeRecord)
    (h : (processAll cfg drive srv l1).2 = none) :
    processAll cfg drive srv (l1 ++ l2) =
      ((processAll cfg drive srv l1).1 ++ (processAll cfg drive srv l2).1,
        (processAll cfg drive srv l2).2) := by
  induction l1 with
  | nil => simp [processAll_nil]
  | cons ch rest ih =>
    cases hp : (processOne cfg drive srv ch).2 with
    | some e =>
      rw [processAll_cons_err cfg drive srv ch rest e hp] at h
      simp at h
    | none =>
      rw [processAll_cons_ok cfg drive srv ch rest hp] at h
      simp only at h
      rw [List.cons_append, processAll_cons_ok cfg drive srv ch (rest ++ l2) hp,
        processAll_cons_ok cfg drive srv ch rest hp, ih h]
      simp [List.append_assoc]

end DriveSync

namespace DriveSync

/-! ### Concrete fixtures used by the witnesses -/

/-- A deployment configuration with Dify credentials present and no folder
restriction. -/
def cfgW : Config :=
  ⟨"dify-key", "dataset-1", "secret-123", "https://svc.example.run.app", ""⟩

/-- Same deployment restricted to folder `"folderX"`. -/
def cfgF : Config :=
  ⟨"dify-key", "dataset-1", "secret-123", "https://svc.example.run.app", "folderX"⟩

/-- A plain (non-native, not trashed, in `folderX`) change record for file `f1`. -/
def rec1 : ChangeRecord := ⟨false, some ⟨some "f1"⟩⟩

/-- A second plain change record, for file `f2`. -/
def rec2 : ChangeRecord := ⟨false, some ⟨some "f2"⟩⟩

/-- A Drive oracle: cursor `"A"` enumerates `[rec1, rec2]` with
`newStartPageToken = "B"`; metadata is present for both files; `getMedia`
succeeds for `f1` and raises `"boom"` for `f2`. -/
def drvW : Drive where
  listChanges := fun t =>
    if t = "A" then .ok ⟨[rec1, rec2], some "B", none⟩ else .error "invalid page token"
  getFileMeta := fun i =>
    .ok ⟨some ("doc-" ++ i), some "text/plain", false, some ["folderX"]⟩
  exportFile := fun _ _ => .error "export not expected"
  getMedia := fun i => if i = "f1" then .ok "bytes1" else .error "boom"
  getNameMeta := fun i => .ok (some ("doc-" ++ i))
  getStartPageToken := .ok "S"
  watch := fun _ _ _ _ => .ok ()

/-- A Dify server that accepts every request with status 200. -/
def srvOk : DifyServer := fun _ => .ok ⟨200, "accepted", "ingestion-record"⟩

/-! ### C1 -/

/-- C1: in a cycle started from a stored cursor, if processing some single
change record raises (metadata re-fetch, content fetch or upload), the whole
cycle aborts with that error, the stored cursor is unchanged, and the events
of the earlier records — their uploads included — remain in the trace. -/
theorem c1_cycle_abort_on_record_error (cfg : Config) (drive : Drive)
    (srv : DifyServer) (store : Option String) (tok : String)
    (res : ChangesResult) (l1 : List ChangeRecord) (ch : ChangeRecord)
    (l2 : List ChangeRecord) (evs : List Event) (e : String)
    (hl : drive.listChanges tok = .ok res)
    (hc : res.changes = l1 ++ ch :: l2)
    (hpre : (processAll cfg drive srv l1).2 = none)
    (hfail : processOne cfg drive srv ch = (evs, some e)) :
    processChanges cfg drive srv store tok =
      ⟨Event.listChanges tok :: ((processAll cfg drive srv l1).1 ++ evs), store, some e⟩ := by
  have h2 : (processOne cfg drive srv ch).2 = some e := by rw [hfail]
  have hch : processAll cfg drive srv (l1 ++ ch :: l2) =
      ((processAll cfg drive srv l1).1 ++ evs, some e) := by
    rw [processAll_append_ok cfg drive srv l1 (ch :: l2) hpre,
      processAll_cons_err cfg drive srv ch l2 e h2, hfail]
  simp only [processChanges, hl, hc, hch]

/-- C1 witness: cursor `"A"`, two valid records; the first record downloads
and uploads successfully, the content fetch of the second record raises `"boom"`;
the cycle reports `"boom"`, the stored cursor stays `"A"`, and the first
post of the first record to the ingestion service is still in the trace. -/
theorem c1_cycle_abort_witness :
    processChanges cfgW drvW srvOk (some "A") "A" =
      ⟨Event.listChanges "A" ::
        ((processAll cfgW drvW srvOk [rec1]).1 ++ [.metaFetch "f2", .download "f2"]),
        some "A", some "boom"⟩ :=
  c1_cycle_abort_on_record_error cfgW drvW srvOk (some "A") "A"
    ⟨[rec1, rec2], some "B", none⟩ [rec1] rec2 []
    [.metaFetch "f2", .download "f2"] "boom" rfl rfl rfl rfl

end DriveSync

namespace DriveSync

/-! ### The record-processing loop never writes the cursor store -/

theorem storeWrite_not_mem_upload (cfg : Config) (srv : DifyServer)
    (fn c t : String) : Event.storeWrite t ∉ (uploadToDify cfg srv fn c).1 := by
  unfold uploadToDify
  dsimp only
  repeat' split
  all_goals simp

theorem storeWrite_not_mem_export (drive : Drive) (fid : String)
    (mt nh : Option String) (t : String) :
    Event.storeWrite t ∉ (exportOrDownload drive fid mt nh).1 := by
  unfold exportOrDownload
  dsimp only
  repeat' split
  all_goals simp

theorem storeWrite_not_mem_fetchAndUpload (cfg : Config) (drive : Drive)
    (srv : DifyServer) (fid : String) (mt nh : Option String) (t : String) :
    Event.storeWrite t ∉ (fetchAndUpload cfg drive srv fid mt nh).1 := by
  have hE := storeWrite_not_mem_export drive fid mt nh t
  unfold fetchAndUpload
  rcases hX : exportOrDownload drive fid mt nh with ⟨evs, r⟩
  rw [hX] at hE
  cases r with
  | error e => exact hE
  | ok v =>
    rcases v with ⟨fname, data⟩
    have hU := storeWrite_not_mem_upload cfg srv fname data t
    rcases hY : uploadToDify cfg srv fname data with ⟨uevs, ur⟩
    rw [hY] at hU
    cases ur <;> simp_all [List.mem_append]

theorem storeWrite_not_mem_processOne (cfg : Config) (drive : Drive)
    (srv : DifyServer) (ch : ChangeRecord) (t : String) :
    Event.storeWrite t ∉ (processOne cfg drive srv ch).1 := by
  unfold processOne
  dsimp only
  split
  · simp
  · split
    · simp
    · rcases hM : drive.getFileMeta ((chFileId ch).getD "") with e | meta
      · simp
      · dsimp only
        split
        · simp
        · split
          · simp
          · have hF := storeWrite_not_mem_fetchAndUpload cfg drive srv
              ((chFileId ch).getD "") meta.mimeType meta.name t
            rcases hX : fetchAndUpload cfg drive srv ((chFileId ch).getD "") meta.mimeType meta.name with ⟨evs, r⟩
            rw [hX] at hF
            simp_all

theorem storeWrite_not_mem_processAll (cfg : Config) (drive : Drive)
    (srv : DifyServer) (l : List ChangeRecord) (t : String) :
    Event.storeWrite t ∉ (processAll cfg drive srv l).1 := by
  induction l with
  | nil => simp [processAll_nil]
  | cons ch rest ih =>
    cases hp : (processOne cfg drive srv ch).2 with
    | some e =>
      rw [processAll_cons_err cfg drive srv ch rest e hp]
      exact storeWrite_not_mem_processOne cfg drive srv ch t
    | none =>
      rw [processAll_cons_ok cfg drive srv ch rest hp]
      simp only [List.mem_append]
      intro h
      rcases h with h | h
      · exact storeWrite_not_mem_processOne cfg drive srv ch t h
      · exact ih h

end DriveSync

namespace DriveSync

/-- On an error-free pass over the records, `_process_changes` commits
`newStartPageToken or nextPageToken` iff that value is truthy, and
otherwise leaves the store as it was. -/
theorem processChanges_ok (cfg : Config) (drive : Drive) (srv : DifyServer)
    (store : Option String) (tok : String) (res : ChangesResult)
    (hl : drive.listChanges tok = .ok res)
    (hok : (processAll cfg drive srv res.changes).2 = none) :
    processChanges cfg drive srv store tok =
      if truthy (pyOrOpt res.newStartPageToken res.nextPageToken) then
        ⟨Event.listChanges tok :: (processAll cfg drive srv res.changes).1 ++
            [.storeWrite ((pyOrOpt res.newStartPageToken res.nextPageToken).getD "")],
          some ((pyOrOpt res.newStartPageToken res.nextPageToken).getD ""), none⟩
      else
        ⟨Event.listChanges tok :: (processAll cfg drive srv res.changes).1, store, none⟩ := by
  rcases hq : processAll cfg drive srv res.changes with ⟨evs, r⟩
  rw [hq] at hok
  dsimp only at hok
  subst hok
  unfold processChanges
  rw [hl]
  dsimp only
  rw [hq]

/-- An enumeration-only Drive oracle: cursor `"Z"` yields zero change
records and neither a `newStartPageToken` nor a `nextPageToken`. -/
def drvE : Drive where
  listChanges := fun t =>
    if t = "Z" then .ok ⟨[], none, none⟩ else .error "invalid page token"
  getFileMeta := fun _ => .error "not expected"
  exportFile := fun _ _ => .error "not expected"
  getMedia := fun _ => .error "not expected"
  getNameMeta := fun _ => .error "not expected"
  getStartPageToken := .ok "S"
  watch := fun _ _ _ _ => .ok ()

/-- A Drive oracle whose enumeration answers with both tokens set:
`newStartPageToken = "NS"` and `nextPageToken = "NP"`, and no records. -/
def drvB : Drive where
  listChanges := fun t =>
    if t = "A" then .ok ⟨[], some "NS", some "NP"⟩ else .error "invalid page token"
  getFileMeta := fun _ => .error "not expected"
  exportFile := fun _ _ => .error "not expected"
  getMedia := fun _ => .error "not expected"
  getNameMeta := fun _ => .error "not expected"
  getStartPageToken := .ok "S"
  watch := fun _ _ _ _ => .ok ()

/-! ### C2 -/

/-- C2: in an error-free cycle, a truthy enumeration token is written to the
store exactly as returned; with no truthy token the store is never written;
and a cycle with zero records and no token performs only the enumeration
call (no fetch, no upload, no write) and keeps the store as provided. -/
theorem c2_cursor_commit (cfg : Config) (drive : Drive) (srv : DifyServer)
    (store : Option String) (tok : String) (res : ChangesResult)
    (hl : drive.listChanges tok = .ok res)
    (hok : (processAll cfg drive srv res.changes).2 = none) :
    (truthy (pyOrOpt res.newStartPageToken res.nextPageToken) = true →
      processChanges cfg drive srv store tok =
        ⟨Event.listChanges tok :: (processAll cfg drive srv res.changes).1 ++
            [.storeWrite ((pyOrOpt res.newStartPageToken res.nextPageToken).getD "")],
          some ((pyOrOpt res.newStartPageToken res.nextPageToken).getD ""), none⟩) ∧
    (truthy (pyOrOpt res.newStartPageToken res.nextPageToken) = false →
      processChanges cfg drive srv store tok =
        ⟨Event.listChanges tok :: (processAll cfg drive srv res.changes).1, store, none⟩ ∧
      ∀ u, Event.storeWrite u ∉ (processChanges cfg drive srv store tok).events) ∧
    (res.changes = [] → truthy (pyOrOpt res.newStartPageToken res.nextPageToken) = false →
      processChanges cfg drive srv store tok = ⟨[Event.listChanges tok], store, none⟩) := by
  have hP := processChanges_ok cfg drive srv store tok res hl hok
  refine ⟨?_, ?_, ?_⟩
  · intro h
    rw [hP, h]
    simp
  · intro h
    have hQ : processChanges cfg drive srv store tok =
        ⟨Event.listChanges tok :: (processAll cfg drive srv res.changes).1, store, none⟩ := by
      rw [hP, h]
      simp
    refine ⟨hQ, ?_⟩
    intro u
    rw [hQ]
    simp only [List.mem_cons]
    rintro (h1 | h1)
    · exact Event.noConfusion h1
    · exact storeWrite_not_mem_processAll cfg drive srv res.changes u h1
  · intro hz h
    rw [hP, h]
    simp [hz, processAll_nil]

/-- C2 witness: with a cursor yielding zero records and no token, the cycle
performs exactly the enumeration call and the stored cursor stays `"Z"`. -/
theorem c2_cursor_commit_witness :
    processChanges cfgW drvE srvOk (some "Z") "Z" =
      ⟨[Event.listChanges "Z"], some "Z", none⟩ :=
  (c2_cursor_commit cfgW drvE srvOk (some "Z") "Z" ⟨[], none, none⟩ rfl rfl).2.2 rfl rfl

/-! ### C10 -/

/-- C10: in an error-free cycle, a non-empty `newStartPageToken` becomes the
stored cursor even when a `nextPageToken` is also present; an empty or
missing `newStartPageToken` is treated as absent, falling back to
`nextPageToken`; when both tokens are empty or missing, nothing is written
and the stored cursor is unchanged. -/
theorem c10_token_priority (cfg : Config) (drive : Drive) (srv : DifyServer)
    (store : Option String) (tok : String) (res : ChangesResult)
    (hl : drive.listChanges tok = .ok res)
    (hok : (processAll cfg drive srv res.changes).2 = none) :
    (∀ a, res.newStartPageToken = some a → a ≠ "" →
      (processChanges cfg drive srv store tok).store = some a) ∧
    ((res.newStartPageToken = none ∨ res.newStartPageToken = some "") →
      ∀ b, res.nextPageToken = some b → b ≠ "" →
        (processChanges cfg drive srv store tok).store = some b) ∧
    ((res.newStartPageToken = none ∨ res.newStartPageToken = some "") →
      (res.nextPageToken = none ∨ res.nextPageToken = some "") →
      (processChanges cfg drive srv store tok).store = store ∧
      ∀ u, Event.storeWrite u ∉ (processChanges cfg drive srv store tok).events) := by
  have hP := processChanges_ok cfg drive srv store tok res hl hok
  refine ⟨?_, ?_, ?_⟩
  · intro a ha hne
    rw [hP]
    simp [pyOrOpt, truthy, ha, hne]
  · intro hn b hb hne
    rcases hn with hn | hn <;>
      · rw [hP]
        simp [pyOrOpt, truthy, hn, hb, hne]
  · intro hn hx
    have hF : truthy (pyOrOpt res.newStartPageToken res.nextPageToken) = false := by
      rcases hn with hn | hn <;> rcases hx with hx | hx <;>
        simp [pyOrOpt, truthy, hn, hx]
    have hQ : processChanges cfg drive srv store tok =
        ⟨Event.listChanges tok :: (processAll cfg drive srv res.changes).1, store, none⟩ := by
      rw [hP, hF]
      simp
    refine ⟨by rw [hQ], ?_⟩
    intro u
    rw [hQ]
    simp only [List.mem_cons]
    rintro (h1 | h1)
    · exact Event.noConfusion h1
    · exact storeWrite_not_mem_processAll cfg drive srv res.changes u h1

/-- C10 witness: enumeration answering `newStartPageToken = "NS"` and
`nextPageToken = "NP"` commits `"NS"`. -/
theorem c10_token_priority_witness :
    (processChanges cfgW drvB srvOk (some "A") "A").store = some "NS" :=
  (c10_token_priority cfgW drvB srvOk (some "A") "A"
    ⟨[], some "NS", some "NP"⟩ rfl rfl).1 "NS" rfl (by decide)

end DriveSync

namespace DriveSync

/-! ### C3 -/

/-- C3 (refuted by the code): a webhook call whose channel token differs
from the configured secret is answered with HTTP 500, not with an
authorization-denied 403.  `abort(403)` raises a werkzeug `HTTPException`,
which subclasses `Exception`, so the `except Exception` wrapper of the route catches
it and turns it into the 500 diagnostic response. -/
theorem c3_webhook_mismatch_is_server_error :
    (drive_webhook cfgW drvW srvOk (some "A") (some "wrong-token")).status = 500 ∧
    (drive_webhook cfgW drvW srvOk (some "A") (some "wrong-token")).status ≠ 403 ∧
    (drive_webhook cfgW drvW srvOk (some "A") (some "wrong-token")).events = [] := by
  refine ⟨rfl, by decide, rfl⟩

/-! ### C4 -/

/-- C4: a webhook call whose channel token differs from the configured
secret performs no processing side effects whatsoever: no store read or
write, no change enumeration, no metadata fetch, no content fetch, no
upload (the event trace is empty and the stored cursor is untouched). -/
theorem c4_webhook_auth_gate (cfg : Config) (drive : Drive) (srv : DifyServer)
    (store : Option String) (hdr : Option String)
    (h : hdr ≠ some cfg.channelToken) :
    drive_webhook cfg drive srv store hdr =
      ⟨[], store, 500, "403 Forbidden: channel token mismatch"⟩ := by
  unfold drive_webhook
  rw [if_pos h]

/-- C4 witness: the concrete deployment rejects token `"wrong-token"`
without emitting a single event. -/
theorem c4_webhook_auth_gate_witness :
    drive_webhook cfgW drvW srvOk (some "A") (some "wrong-token") =
      ⟨[], some "A", 500, "403 Forbidden: channel token mismatch"⟩ :=
  c4_webhook_auth_gate cfgW drvW srvOk (some "A") (some "wrong-token") (by decide)

/-! ### C6 -/

/-- C6: a change record flagged removed, or carrying no (truthy) file
identifier, is dropped before any provider call: the loop body raises
nothing and emits no events — in particular no metadata re-fetch. -/
theorem c6_removed_and_missing_id (cfg : Config) (drive : Drive)
    (srv : DifyServer) (ch : ChangeRecord) :
    (ch.removed = true → processOne cfg drive srv ch = ([], none)) ∧
    (truthy (chFileId ch) = false → processOne cfg drive srv ch = ([], none)) := by
  constructor
  · intro h
    simp [processOne, h]
  · intro h
    cases hrm : ch.removed <;> simp [processOne, hrm, h]

/-- C6 witness: a removed record, and a record whose embedded file object
has no id, are both dropped with an empty trace. -/
theorem c6_removed_and_missing_id_witness :
    processOne cfgW drvW srvOk ⟨true, some ⟨some "f1"⟩⟩ = ([], none) ∧
    processOne cfgW drvW srvOk ⟨false, some ⟨none⟩⟩ = ([], none) :=
  ⟨(c6_removed_and_missing_id cfgW drvW srvOk ⟨true, some ⟨some "f1"⟩⟩).1 rfl,
   (c6_removed_and_missing_id cfgW drvW srvOk ⟨false, some ⟨none⟩⟩).2 rfl⟩

end DriveSync

namespace DriveSync

/-! ### C5 -/

/-- C5: once the metadata re-fetch of a live record succeeded, a trashed
file is skipped before the content fetch; with a folder restriction
configured, a file whose current parent set lacks the target folder is
skipped before the content fetch; and with the restriction unset the record
proceeds to the content-fetch stage, its parent set never consulted. -/
theorem c5_trashed_and_folder_filters (cfg : Config) (drive : Drive)
    (srv : DifyServer) (ch : ChangeRecord) (fid : String) (meta : FileMeta)
    (hrm : ch.removed = false)
    (hid : chFileId ch = some fid) (hne : fid ≠ "")
    (hm : drive.getFileMeta fid = .ok meta) :
    (meta.trashed = true →
      processOne cfg drive srv ch = ([.metaFetch fid], none)) ∧
    (meta.trashed = false → cfg.targetFolderId ≠ "" →
      cfg.targetFolderId ∉ meta.parents.getD [] →
      processOne cfg drive srv ch = ([.metaFetch fid], none)) ∧
    (meta.trashed = false → cfg.targetFolderId = "" →
      processOne cfg drive srv ch =
        (Event.metaFetch fid ::
            (fetchAndUpload cfg drive srv fid meta.mimeType meta.name).1,
          (fetchAndUpload cfg drive srv fid meta.mimeType meta.name).2)) := by
  have hT : truthy (chFileId ch) = true := by
    rw [hid]
    simp [truthy, hne]
  have hD : (chFileId ch).getD "" = fid := by rw [hid]; rfl
  refine ⟨?_, ?_, ?_⟩
  · intro ht
    simp [processOne, hrm, hT, hD, hm, ht]
  · intro ht hcfg hout
    simp [processOne, hrm, hT, hD, hm, ht, hcfg, hout]
  · intro ht hcfg
    simp [processOne, hrm, hT, hD, hm, ht, hcfg]

/-- A Drive oracle with one trashed file (`trash`) and one file parented
outside the target folder (`out`). -/
def drvM : Drive where
  listChanges := fun _ => .error "not expected"
  getFileMeta := fun i =>
    if i = "trash" then .ok ⟨some "doc-t", some "text/plain", true, some ["folderX"]⟩
    else .ok ⟨some "doc-o", some "text/plain", false, some ["otherFolder"]⟩
  exportFile := fun _ _ => .error "not expected"
  getMedia := fun _ => .ok "bytes"
  getNameMeta := fun i => .ok (some ("doc-" ++ i))
  getStartPageToken := .ok "S"
  watch := fun _ _ _ _ => .ok ()

/-- C5 witness: the trashed file is skipped after its metadata fetch; with
restriction `folderX` the out-of-folder file is skipped after its metadata
fetch; with the restriction unset the same out-of-folder file proceeds to
the content fetch. -/
theorem c5_trashed_and_folder_filters_witness :
    processOne cfgW drvM srvOk ⟨false, some ⟨some "trash"⟩⟩ = ([.metaFetch "trash"], none) ∧
    processOne cfgF drvM srvOk ⟨false, some ⟨some "out"⟩⟩ = ([.metaFetch "out"], none) ∧
    processOne cfgW drvM srvOk ⟨false, some ⟨some "out"⟩⟩ =
      (Event.metaFetch "out" ::
          (fetchAndUpload cfgW drvM srvOk "out" (some "text/plain") (some "doc-o")).1,
        (fetchAndUpload cfgW drvM srvOk "out" (some "text/plain") (some "doc-o")).2) :=
  ⟨(c5_trashed_and_folder_filters cfgW drvM srvOk ⟨false, some ⟨some "trash"⟩⟩ "trash"
      ⟨some "doc-t", some "text/plain", true, some ["folderX"]⟩
      rfl rfl (by decide) rfl).1 rfl,
   (c5_trashed_and_folder_filters cfgF drvM srvOk ⟨false, some ⟨some "out"⟩⟩ "out"
      ⟨some "doc-o", some "text/plain", false, some ["otherFolder"]⟩
      rfl rfl (by decide) rfl).2.1 rfl (by decide) (by decide),
   (c5_trashed_and_folder_filters cfgW drvM srvOk ⟨false, some ⟨some "out"⟩⟩ "out"
      ⟨some "doc-o", some "text/plain", false, some ["otherFolder"]⟩
      rfl rfl (by decide) rfl).2.2 rfl rfl⟩

end DriveSync

namespace DriveSync

/-! ### C7 -/

/-- C7: with credentials configured, every upload posts exactly one minimal
single-file request first; a second, enriched request carrying the
processing-options form field is posted iff the first response has status
400, and exactly once; any other failure status of the first response, or a
failure status of the retry, raises carrying the first 1000 characters of
the response text; a non-failure status returns the parsed response body. -/
theorem c7_upload_retry (cfg : Config) (srv : DifyServer) (fn c : String)
    (hk : cfg.difyApiKey ≠ "") (hd : cfg.difyDatasetId ≠ "") :
    ((uploadToDify cfg srv fn c).1.head? = some (.post ⟨fn, c, none⟩)) ∧
    (∀ r, srv ⟨fn, c, none⟩ = .ok r →
      (r.statusCode = 400 →
        (uploadToDify cfg srv fn c).1 =
          [.post ⟨fn, c, none⟩, .post ⟨fn, c, some processOptsJson⟩]) ∧
      (r.statusCode ≠ 400 →
        (uploadToDify cfg srv fn c).1 = [.post ⟨fn, c, none⟩] ∧
        (isFailureStatus r.statusCode = true →
          (uploadToDify cfg srv fn c).2 =
            .error (.httpStatus r.statusCode (r.text.take 1000))) ∧
        (isFailureStatus r.statusCode = false →
          (uploadToDify cfg srv fn c).2 = .ok r.jsonBody))) ∧
    (∀ r r2, srv ⟨fn, c, none⟩ = .ok r → r.statusCode = 400 →
      srv ⟨fn, c, some processOptsJson⟩ = .ok r2 →
      (isFailureStatus r2.statusCode = true →
        (uploadToDify cfg srv fn c).2 =
          .error (.httpStatus r2.statusCode (r2.text.take 1000))) ∧
      (isFailureStatus r2.statusCode = false →
        (uploadToDify cfg srv fn c).2 = .ok r2.jsonBody)) := by
  have hcc : ¬ ((cfg.difyApiKey = "" || cfg.difyDatasetId = "") = true) := by
    simp [hk, hd]
  refine ⟨?_, ?_, ?_⟩
  · unfold uploadToDify
    rw [if_neg hcc]
    dsimp only
    rcases srv ⟨fn, c, none⟩ with e | r
    · rfl
    · dsimp only
      split
      · rcases srv ⟨fn, c, some processOptsJson⟩ with e2 | r2
        · rfl
        · dsimp only
          split <;> rfl
      · split <;> rfl
  · intro r hr
    constructor
    · intro h400
      unfold uploadToDify
      rw [if_neg hcc]
      dsimp only
      rw [hr]
      dsimp only
      rw [if_pos h400]
      rcases srv ⟨fn, c, some processOptsJson⟩ with e2 | r2
      · rfl
      · dsimp only
        split <;> rfl
    · intro hne
      unfold uploadToDify
      rw [if_neg hcc]
      dsimp only
      rw [hr]
      dsimp only
      rw [if_neg hne]
      refine ⟨by split <;> rfl, ?_, ?_⟩
      · intro hf
        rw [if_pos hf]
      · intro hf
        simp [hf]
  · intro r r2 hr h400 hr2
    unfold uploadToDify
    rw [if_neg hcc]
    dsimp only
    rw [hr]
    dsimp only
    rw [if_pos h400, hr2]
    dsimp only
    constructor
    · intro hf
      rw [if_pos hf]
    · intro hf
      simp [hf]

/-- A Dify endpoint that answers 400 to the minimal request and 200 to the
enriched retry. -/
def srv400 : DifyServer := fun req =>
  match req.dataField with
  | none => .ok ⟨400, "bad request body", "err"⟩
  | some _ => .ok ⟨200, "created", "record"⟩

/-- C7 witness: against `srv400` the upload posts the minimal request, then
exactly one enriched retry, and returns the parsed body of the retry. -/
theorem c7_upload_retry_witness :
    (uploadToDify cfgW srv400 "a.txt" "bytes").1 =
      [.post ⟨"a.txt", "bytes", none⟩, .post ⟨"a.txt", "bytes", some processOptsJson⟩] ∧
    (uploadToDify cfgW srv400 "a.txt" "bytes").2 = .ok "record" :=
  ⟨((c7_upload_retry cfgW srv400 "a.txt" "bytes" (by decide) (by decide)).2.1
      ⟨400, "bad request body", "err"⟩ rfl).1 rfl,
   ((c7_upload_retry cfgW srv400 "a.txt" "bytes" (by decide) (by decide)).2.2
      ⟨400, "bad request body", "err"⟩ ⟨200, "created", "record"⟩ rfl rfl rfl).2 rfl⟩

end DriveSync

namespace DriveSync

/-! ### C8 -/

/-- C8: for a provider-native content type (prefix
`application/vnd.google-apps`), a subtype ending in `document` exports with
the portable word-processing MIME type into `name_hint-or-id ++ ".docx"`; a
subtype ending in `spreadsheets` exports with the portable tabular MIME
type into `name_hint-or-id ++ ".xlsx"`; every other native subtype exports
as `application/pdf` into `name_hint-or-id ++ ".pdf"`. -/
theorem c8_export_mapping (drive : Drive) (fid : String)
    (nameHint : Option String) (mt : String)
    (hg : strStartsWith mt "application/vnd.google-apps" = true) :
    (strEndsWith mt "document" = true →
      (exportOrDownload drive fid (some mt) nameHint).1 = [.export fid wordMime] ∧
      ∀ d, drive.exportFile fid wordMime = .ok d →
        (exportOrDownload drive fid (some mt) nameHint).2 =
          .ok (pyOrStr nameHint fid ++ ".docx", d)) ∧
    (strEndsWith mt "document" = false → strEndsWith mt "spreadsheets" = true →
      (exportOrDownload drive fid (some mt) nameHint).1 = [.export fid sheetMime] ∧
      ∀ d, drive.exportFile fid sheetMime = .ok d →
        (exportOrDownload drive fid (some mt) nameHint).2 =
          .ok (pyOrStr nameHint fid ++ ".xlsx", d)) ∧
    (strEndsWith mt "document" = false → strEndsWith mt "spreadsheets" = false →
      (exportOrDownload drive fid (some mt) nameHint).1 = [.export fid "application/pdf"] ∧
      ∀ d, drive.exportFile fid "application/pdf" = .ok d →
        (exportOrDownload drive fid (some mt) nameHint).2 =
          .ok (pyOrStr nameHint fid ++ ".pdf", d)) := by
  refine ⟨?_, ?_, ?_⟩
  · intro hdoc
    constructor
    · simp only [exportOrDownload, hg, hdoc, if_true]
      rcases drive.exportFile fid wordMime with e | d <;> rfl
    · intro d hd
      simp only [exportOrDownload, hg, hdoc, if_true, hd]
  · intro hdoc hsheet
    constructor
    · simp only [exportOrDownload, hg, hdoc, hsheet, Bool.false_eq_true, if_false, if_true]
      rcases drive.exportFile fid sheetMime with e | d <;> rfl
    · intro d hd
      simp only [exportOrDownload, hg, hdoc, hsheet, Bool.false_eq_true, if_false, if_true, hd]
  · intro hdoc hsheet
    constructor
    · simp only [exportOrDownload, hg, hdoc, hsheet, Bool.false_eq_true, if_false]
      rcases drive.exportFile fid "application/pdf" with e | d <;> rfl
    · intro d hd
      simp only [exportOrDownload, hg, hdoc, hsheet, Bool.false_eq_true, if_false, hd]
      rw [if_pos trivial]

/-- A Drive oracle whose export endpoint always yields `"edata"`. -/
def drvD : Drive where
  listChanges := fun _ => .error "not expected"
  getFileMeta := fun _ => .error "not expected"
  exportFile := fun _ _ => .ok "edata"
  getMedia := fun _ => .error "not expected"
  getNameMeta := fun _ => .error "not expected"
  getStartPageToken := .ok "S"
  watch := fun _ _ _ _ => .ok ()

/-- C8 witness: the three native subtypes map to `.docx`/`.xlsx`/`.pdf`
with the corresponding export MIME types. -/
theorem c8_export_mapping_witness :
    ((exportOrDownload drvD "g1" (some "application/vnd.google-apps.document") (some "Doc")).1 =
        [.export "g1" wordMime] ∧
      (exportOrDownload drvD "g1" (some "application/vnd.google-apps.document") (some "Doc")).2 =
        .ok ("Doc.docx", "edata")) ∧
    ((exportOrDownload drvD "g2" (some "application/vnd.google-apps.spreadsheets") none).1 =
        [.export "g2" sheetMime] ∧
      (exportOrDownload drvD "g2" (some "application/vnd.google-apps.spreadsheets") none).2 =
        .ok ("g2.xlsx", "edata")) ∧
    ((exportOrDownload drvD "g3" (some "application/vnd.google-apps.presentation") (some "Slides")).1 =
        [.export "g3" "application/pdf"] ∧
      (exportOrDownload drvD "g3" (some "application/vnd.google-apps.presentation") (some "Slides")).2 =
        .ok ("Slides.pdf", "edata")) :=
  ⟨⟨((c8_export_mapping drvD "g1" (some "Doc") "application/vnd.google-apps.document"
        (by decide)).1 (by decide)).1,
    ((c8_export_mapping drvD "g1" (some "Doc") "application/vnd.google-apps.document"
        (by decide)).1 (by decide)).2 "edata" rfl⟩,
   ⟨((c8_export_mapping drvD "g2" none "application/vnd.google-apps.spreadsheets"
        (by decide)).2.1 (by decide) (by decide)).1,
    ((c8_export_mapping drvD "g2" none "application/vnd.google-apps.spreadsheets"
        (by decide)).2.1 (by decide) (by decide)).2 "edata" rfl⟩,
   ⟨((c8_export_mapping drvD "g3" (some "Slides") "application/vnd.google-apps.presentation"
        (by decide)).2.2 (by decide) (by decide)).1,
    ((c8_export_mapping drvD "g3" (some "Slides") "application/vnd.google-apps.presentation"
        (by decide)).2.2 (by decide) (by decide)).2 "edata" rfl⟩⟩

/-! ### C9 -/

/-- C9: `/init` validates the callback address before any provider call (an
unconfigured or non-HTTPS address produces the error response with an empty
trace and an untouched store); on a valid address with a fresh token the
trace persists the cursor strictly before the watch registration; and a
failing watch registration still leaves the freshly persisted cursor in the
store. -/
theorem c9_init_watch (cfg : Config) (drive : Drive) (store : Option String)
    (cid : String) :
    ((cfg.webhookUrl = "" ∨ ¬ strStartsWith cfg.webhookUrl "https://") →
      init_watch cfg drive store cid =
        ⟨[], store, 500, "WEBHOOK_URL missing or invalid (must be https Cloud Run URL)"⟩) ∧
    (∀ tok, ¬ (cfg.webhookUrl = "" ∨ ¬ strStartsWith cfg.webhookUrl "https://") →
      drive.getStartPageToken = .ok tok →
      (init_watch cfg drive store cid).events =
        [.startTokenCall, .storeWrite tok,
          .watchCall tok cid (rstripSlash cfg.webhookUrl ++ "/drive-webhook") cfg.channelToken] ∧
      (init_watch cfg drive store cid).store = some tok ∧
      (∀ e, drive.watch tok cid (rstripSlash cfg.webhookUrl ++ "/drive-webhook")
          cfg.channelToken = .error e →
        init_watch cfg drive store cid =
          ⟨[.startTokenCall, .storeWrite tok,
              .watchCall tok cid (rstripSlash cfg.webhookUrl ++ "/drive-webhook") cfg.channelToken],
            some tok, 500, e⟩)) := by
  constructor
  · intro h
    unfold init_watch
    rw [if_pos h]
  · intro tok h htok
    unfold init_watch
    rw [if_neg h]
    dsimp only
    rw [htok]
    dsimp only
    refine ⟨?_, ?_, ?_⟩
    · rcases drive.watch tok cid (rstripSlash cfg.webhookUrl ++ "/drive-webhook")
        cfg.channelToken with e | u <;> rfl
    · rcases drive.watch tok cid (rstripSlash cfg.webhookUrl ++ "/drive-webhook")
        cfg.channelToken with e | u <;> rfl
    · intro e he
      rw [he]

/-- A Drive oracle whose watch registration always fails. -/
def drvWF : Drive where
  listChanges := fun _ => .error "not expected"
  getFileMeta := fun _ => .error "not expected"
  exportFile := fun _ _ => .error "not expected"
  getMedia := fun _ => .error "not expected"
  getNameMeta := fun _ => .error "not expected"
  getStartPageToken := .ok "S"
  watch := fun _ _ _ _ => .error "watch registration failed"

/-- C9 witness: with a valid HTTPS callback, the cursor `"S"` is persisted
before the watch call; the watch registration fails, `/init` reports the
error, and the persisted cursor `"S"` is not rolled back. -/
theorem c9_init_watch_witness :
    init_watch cfgW drvWF (some "old") "chan-1" =
      ⟨[.startTokenCall, .storeWrite "S",
          .watchCall "S" "chan-1" (rstripSlash cfgW.webhookUrl ++ "/drive-webhook")
            cfgW.channelToken],
        some "S", 500, "watch registration failed"⟩ :=
  ((c9_init_watch cfgW drvWF (some "old") "chan-1").2 "S" (by decide) rfl).2.2
    "watch registration failed" rfl

end DriveSync
